import Mathlib

/-!
Shallow embedding of the booking / review engine of the bookmyshoot API
(`app/crud/booking.py`, `app/crud/review.py`, `app/crud/photographer.py`,
`app/models/event.py`, `app/models/user.py`).

Datetimes used in interval comparisons are modelled as integer instants;
the `created_at` timestamp, which the statistics aggregation decomposes
into calendar fields, is modelled as a structured `PyDateTime`.
ObjectIds are modelled as naturals.  Python floats in the rating
aggregate are modelled as exact rationals, with `round(x, 2)` modelled
as round-half-to-even at two decimal places.
-/

namespace BookMyShoot

/-- Booking statuses, from `BookingStatus` in `app/models/event.py`. -/
inductive BookingStatus where
  | pending
  | confirmed
  | in_progress
  | completed
  | cancelled
  | rejected
deriving DecidableEq, Repr

/-- User roles, from `UserRole` in `app/models/user.py`.  Note the source
enum has members SUPER_ADMIN, CUSTOMER and PHOTOGRAPHER only: the name
`UserRole.ADMIN`, referenced by several handlers, does not exist, and
evaluating it raises `AttributeError` in Python. -/
inductive UserRole where
  | super_admin
  | customer
  | photographer
deriving DecidableEq, Repr

/-- Python exceptions that escape the handlers unhandled. -/
inductive PyExc where
  | attributeError
  | typeError
  | valueError
deriving DecidableEq, Repr

/-- Event types, from `EventType` in `app/models/event.py`. -/
inductive EventType where
  | wedding
  | pre_wedding
  | birthday
  | corporate
  | inauguration
  | promotion
  | influencer
  | other
deriving DecidableEq, Repr

/-- Combo types, from `ComboType` in `app/models/event.py`. -/
inductive ComboType where
  | photo_only
  | video_only
  | photo_plus_video
  | photo_plus_drone
  | all_services
deriving DecidableEq, Repr

/-- Location, from `Location` in `app/models/event.py` (coordinates omitted). -/
structure Location where
  city : String
  sub_location : String
deriving DecidableEq, Repr

/-- A UTC datetime decomposed the way `datetime` exposes it to
`replace`, `$year`/`$month` and comparisons: calendar fields plus the
remaining time-of-day (seconds), ordered lexicographically. -/
structure PyDateTime where
  year : Nat
  month : Nat
  day : Nat
  secs : Nat
deriving DecidableEq, Repr

/-- Lexicographic order on datetimes (Python datetime comparison). -/
def PyDateTime.le (a b : PyDateTime) : Bool :=
  if a.year ≠ b.year then a.year < b.year
  else if a.month ≠ b.month then a.month < b.month
  else if a.day ≠ b.day then a.day < b.day
  else a.secs ≤ b.secs

/-- Gregorian leap-year test, as `calendar.isleap` / `datetime` use it. -/
def isLeapYear (y : Nat) : Bool :=
  (y % 4 == 0 && y % 100 != 0) || y % 400 == 0

/-- Days in a month, as `datetime` validates the `day` field. -/
def daysInMonth (y m : Nat) : Nat :=
  if m == 2 then (if isLeapYear y then 29 else 28)
  else if m == 4 || m == 6 || m == 9 || m == 11 then 30
  else 31

/-- Semantics of Python `d.replace(month=m)`: the new month must lie in
1..12 and the unchanged day must be valid in the new month, otherwise
`ValueError` is raised (modelled as `none`). -/
def replaceMonth (d : PyDateTime) (m : Int) : Option PyDateTime :=
  if 1 ≤ m ∧ m ≤ 12 then
    if d.day ≤ daysInMonth d.year m.toNat then
      some { d with month := m.toNat }
    else none
  else none

/-- Booking record, from `Booking` in `app/models/event.py`.
`start_time`/`end_time` are the instants compared by the availability
filter; `created_at` is kept structured for the statistics aggregation. -/
structure Booking where
  id : Nat
  customer_id : Nat
  photographer_id : Nat
  event_type : EventType
  combo_type : ComboType
  location : Location
  start_time : Int
  end_time : Int
  total_hours : ℚ
  total_amount : ℚ
  status : BookingStatus
  special_requests : Option String
  cancellation_reason : Option String
  created_at : PyDateTime
deriving DecidableEq, Repr

/-- Photographer profile restricted to the rating aggregate, from
`PhotographerProfile` in `app/models/event.py`; the `.get(field, 0)`
defaults of `update_rating` are folded into the field defaults. -/
structure Photographer where
  id : Nat
  rating_avg : ℚ
  total_reviews : Nat
deriving DecidableEq, Repr

/-- Review record, from `Review` in `app/models/event.py`. -/
structure Review where
  id : Nat
  photographer_id : Nat
  reviewer_id : Nat
  booking_id : Nat
  rating : Nat
deriving DecidableEq, Repr

/-- The persistent MongoDB store: the `bookings`, `photographer_profiles`
and `reviews` collections, plus a counter generating fresh ObjectIds. -/
structure Store where
  bookings : List Booking
  photographers : List Photographer
  reviews : List Review
  nextId : Nat
deriving DecidableEq, Repr

/-- The authenticated actor (`current_user`): id and role. -/
structure User where
  id : Nat
  role : UserRole
deriving DecidableEq, Repr

/-- Lookup of a booking by `_id` (`CRUDBase.get`). -/
def findBooking (s : Store) (bid : Nat) : Option Booking :=
  s.bookings.find? (fun b => b.id == bid)

/-- Lookup of a photographer profile by `_id` (`CRUDBase.get`). -/
def findPhotographer (s : Store) (pid : Nat) : Option Photographer :=
  s.photographers.find? (fun p => p.id == pid)

/-- The active statuses of the availability filter in
`CRUDBooking.check_availability`: PENDING, CONFIRMED, IN_PROGRESS. -/
def isActive : BookingStatus → Bool
  | .pending => true
  | .confirmed => true
  | .in_progress => true
  | _ => false

/-- The Mongo filter document of `CRUDBooking.check_availability`,
applied to one stored booking.  The source's `$or` lists the same
clause `start_time < end_time-candidate AND end_time > start-candidate`
twice, mirrored here; the `_id: {$ne: ...}` clause is added exactly when
`exclude_booking_id` is given. -/
def conflictsWith (pid : Nat) (st et : Int) (excl : Option Nat) (b : Booking) : Bool :=
  (b.photographer_id == pid) && isActive b.status &&
    ((decide (b.start_time < et) && decide (b.end_time > st)) ||
     (decide (b.start_time < et) && decide (b.end_time > st))) &&
    (match excl with
     | some eid => !(b.id == eid)
     | none => true)

/-- `CRUDBooking.check_availability`: a read-only `find_one` against the
filter above; returns `existing_booking is None`.  The body contains no
range validation and no raise site. -/
def check_availability (s : Store) (pid : Nat) (st et : Int) (excl : Option Nat) : Bool :=
  (s.bookings.find? (conflictsWith pid st et excl)).isNone

/-- Error taxonomy of the specification for the availability check.  The
source method never raises it; it is present so that the specified
failure mode is statable. -/
inductive AvailError where
  | invalidRange
deriving DecidableEq, Repr

/-- The availability check as a call: it completes normally with the
boolean result (the source has no raise site) and performs no write, so
the store passes through unchanged. -/
def check_availabilityRun (s : Store) (pid : Nat) (st et : Int) (excl : Option Nat) :
    (Except AvailError Bool) × Store :=
  (Except.ok (check_availability s pid st et excl), s)

/-- Request body of `POST /bookings` (`BookingCreate` in
`app/models/event.py`): it inherits `BookingBase` unchanged, and
`BookingBase` declares no `photographer_id` field. -/
structure BookingCreateReq where
  event_type : EventType
  combo_type : ComboType
  location : Location
  start_time : Int
  end_time : Int
  total_hours : ℚ
  total_amount : ℚ
  special_requests : Option String
deriving DecidableEq, Repr

/-- Outcome of the `create_booking` handler.  The `created` and
`photographerNotFound` outcomes are what the source text attempts to
produce; the theorems show neither is reachable. -/
inductive CreateBookingResult where
  | created (b : Booking)
  | photographerNotFound
  | raised (e : PyExc)
deriving DecidableEq, Repr

/-- The `create_booking` handler in `app/crud/booking.py`.  Its first
executed expression reads `booking_in.photographer_id`, but
`BookingCreate` declares no such field, so every request raises
`AttributeError` while evaluating the argument of the photographer
lookup — before the lookup, before any availability logic
(`check_availability` has no caller anyway), and before any write.
Independently, the `crud.create(booking_data)` call it would finish
with passes a plain dict to `CRUDBase.create`, whose
`obj_in.dict(exclude_unset=True)` would raise `AttributeError` before
`insert_one`.  Nothing is ever persisted or returned. -/
def create_booking (s : Store) (_now : PyDateTime) (_user_id : Nat) (_req : BookingCreateReq) :
    CreateBookingResult × Store :=
  (.raised .attributeError, s)

/-- Patch body of `PUT /bookings/{id}` (`BookingUpdate` in
`app/models/event.py`): it exposes `status`, `special_requests` and
`cancellation_reason`; `none` models a field absent from the request
(Pydantic `exclude_unset`). -/
structure BookingUpdate where
  status : Option BookingStatus
  special_requests : Option String
  cancellation_reason : Option String
deriving DecidableEq, Repr

/-- Application of the `$set` document built from the set fields of the
patch (`CRUDBase.update` with `exclude_unset=True`). -/
def applyBookingUpdate (b : Booking) (p : BookingUpdate) : Booking :=
  { b with
    status := p.status.getD b.status
    special_requests := match p.special_requests with
      | some v => some v
      | none => b.special_requests
    cancellation_reason := match p.cancellation_reason with
      | some v => some v
      | none => b.cancellation_reason }

/-- Replacement of the booking with matching `_id`
(`find_one_and_update` on `{"_id": id}`). -/
def setBooking (s : Store) (c : Booking) : Store :=
  { s with bookings := s.bookings.map (fun b => if b.id == c.id then c else b) }

/-- Outcome of the `update_booking` (PUT) handler. -/
inductive UpdateBookingResult where
  | ok (b : Booking)
  | notFound
  | raised (e : PyExc)
deriving DecidableEq, Repr

/-- The `update_booking` handler in `app/crud/booking.py`: 404 when the
booking is absent; the permission condition short-circuits on ownership,
and when the caller is neither the customer nor the photographer it
evaluates `UserRole.ADMIN` — a member that does not exist — raising
`AttributeError`; otherwise it applies the patch. -/
def update_booking (s : Store) (u : User) (bid : Nat) (p : BookingUpdate) :
    UpdateBookingResult × Store :=
  match findBooking s bid with
  | none => (.notFound, s)
  | some b =>
    if b.customer_id == u.id || b.photographer_id == u.id then
      let b2 := applyBookingUpdate b p
      (.ok b2, setBooking s b2)
    else
      (.raised .attributeError, s)

/-- Outcome of the `update_booking_status` (PATCH) handler.  The
constructors `ok`, `forbidden` and `badRequest` are the outcomes the
source attempts to produce; the theorems show they are unreachable. -/
inductive StatusUpdateResult where
  | ok (b : Booking)
  | notFound
  | forbidden
  | badRequest
  | raised (e : PyExc)
deriving DecidableEq, Repr

/-- The `update_booking_status` handler in `app/crud/booking.py`.  Its
parameter `status : BookingStatus` shadows the imported `fastapi.status`
module, so the permission / validation branches, which build
`HTTPException(status_code=status.HTTP_403_FORBIDDEN, ...)` (resp.
`status.HTTP_400_BAD_REQUEST`), raise `AttributeError` while evaluating
the constructor argument; the branch that reaches persistence calls
`crud.update_status(booking_id, status)` without the required
`updated_by` argument, raising `TypeError`.  The 404 branch uses the
literal `404` and is unaffected. -/
def update_booking_status (s : Store) (u : User) (bid : Nat) (st : BookingStatus) :
    StatusUpdateResult × Store :=
  match findBooking s bid with
  | none => (.notFound, s)
  | some b =>
    match u.role with
    | .customer =>
      if !(b.customer_id == u.id) then (.raised .attributeError, s)
      else if !(st == .cancelled) then (.raised .attributeError, s)
      else (.raised .typeError, s)
    | .photographer =>
      if !(b.photographer_id == u.id) then (.raised .attributeError, s)
      else (.raised .typeError, s)
    | .super_admin => (.raised .typeError, s)

/-- Round-half-to-even on rationals, the rounding mode of Python
`round`. -/
def roundHalfEven (q : ℚ) : ℤ :=
  let f : ℤ := ⌊q⌋
  let frac : ℚ := q - (f : ℚ)
  if frac < 1 / 2 then f
  else if 1 / 2 < frac then f + 1
  else if f % 2 = 0 then f else f + 1

/-- Python `round(x, 2)`. -/
def round2 (q : ℚ) : ℚ :=
  (roundHalfEven (q * 100) : ℚ) / 100

/-- Replacement of the photographer profile with matching `_id`
(`update_one` on `{"_id": ObjectId(photographer_id)}`). -/
def setPhotographer (s : Store) (c : Photographer) : Store :=
  { s with photographers := s.photographers.map (fun p => if p.id == c.id then c else p) }

/-- `CRUDPhotographer.update_rating` in `app/crud/photographer.py`:
reads the current aggregate (`None` when the profile is absent),
computes `new_avg = (current_rating * total_reviews + new_rating) /
(total_reviews + 1)`, and issues one `update_one` whose single `$set`
stores `rating_avg := round(new_avg, 2)` and
`total_reviews := total_reviews + 1` together. -/
def update_rating (s : Store) (pid : Nat) (new_rating : Nat) :
    Option Photographer × Store :=
  match findPhotographer s pid with
  | none => (none, s)
  | some p =>
    let new_avg : ℚ :=
      (p.rating_avg * (p.total_reviews : ℚ) + (new_rating : ℚ)) / ((p.total_reviews : ℚ) + 1)
    let p2 : Photographer :=
      { p with rating_avg := round2 new_avg, total_reviews := p.total_reviews + 1 }
    (some p2, setPhotographer s p2)

/-- Request body of `POST /reviews` (`ReviewCreate` in
`app/models/event.py`), rating validated 1..5 by Pydantic. -/
structure ReviewCreateReq where
  photographer_id : Nat
  booking_id : Nat
  rating : Nat
deriving DecidableEq, Repr

/-- Outcome of the `create_review` handler. -/
inductive CreateReviewResult where
  | ok (r : Review)
  | photographerNotFound
  | alreadyReviewed
  | raised (e : PyExc)
deriving DecidableEq, Repr

/-- The `create_review` handler in `app/crud/review.py`: looks up the
photographer (404 when absent), then calls
`crud.get_by_photographer_and_reviewer`, a method defined nowhere on
`CRUDReview` or `CRUDBase`, raising `AttributeError` before anything is
written.  The `alreadyReviewed` and `ok` outcomes that the source text
attempts are therefore unreachable; had the call succeeded, the handler
would finish with plain `crud.create(review_data)`, never invoking
`update_rating`. -/
def create_review (s : Store) (_u : User) (req : ReviewCreateReq) :
    CreateReviewResult × Store :=
  match findPhotographer s req.photographer_id with
  | none => (.photographerNotFound, s)
  | some _ => (.raised .attributeError, s)

/-- `CRUDReview.create_with_photographer_update` in
`app/crud/review.py`.  Its body passes its `review_in : dict` argument
straight to `CRUDBase.create`, whose `obj_in.dict(exclude_unset=True)`
raises `AttributeError` on a plain dict before `insert_one`; the
insert-then-`update_rating` continuation the source text attempts is
unreachable.  No route handler calls this method. -/
def create_with_photographer_update (s : Store) (_u : User) (_req : ReviewCreateReq) :
    PyExc × Store :=
  (.attributeError, s)

/-- One `(year, month)` bucket of the monthly aggregation. -/
structure MonthCount where
  year : Nat
  month : Nat
  count : Nat
deriving DecidableEq, Repr

/-- Ascending `(year, month)` comparison (the `$sort` of the monthly
pipeline). -/
def monthKeyLe (a b : Nat × Nat) : Bool :=
  a.1 < b.1 || (a.1 == b.1 && a.2 ≤ b.2)

/-- Insertion into a `(year, month)`-sorted list. -/
def insertMonthKey (x : Nat × Nat) : List (Nat × Nat) → List (Nat × Nat)
  | [] => [x]
  | y :: ys => if monthKeyLe x y then x :: y :: ys else y :: insertMonthKey x ys

/-- Insertion sort by `(year, month)` ascending. -/
def sortMonthKeys (l : List (Nat × Nat)) : List (Nat × Nat) :=
  l.foldr insertMonthKey []

/-- Result shape of `CRUDBooking.get_booking_stats`. -/
structure BookingStats where
  total_bookings : Nat
  status_counts : List (BookingStatus × Nat)
  monthly_counts : List MonthCount
deriving DecidableEq, Repr

/-- All statuses, for the `$group` by status. -/
def allStatuses : List BookingStatus :=
  [.pending, .confirmed, .in_progress, .completed, .cancelled, .rejected]

/-- `CRUDBooking.get_booking_stats` in `app/crud/booking.py`: computes
`six_months_ago = datetime.utcnow().replace(month=month-6)` — a plain
field replacement whose `ValueError` (month out of 1..12, or day not
valid in the target month) is modelled as `none` — then counts the
photographer's bookings, groups them by status, and buckets those with
`created_at >= six_months_ago` by `(year, month)` of `created_at`,
sorted ascending. -/
def get_booking_stats (s : Store) (now : PyDateTime) (pid : Nat) : Option BookingStats :=
  match replaceMonth now ((now.month : Int) - 6) with
  | none => none
  | some cutoff =>
    let mine := s.bookings.filter (fun b => b.photographer_id == pid)
    let recent := mine.filter (fun b => PyDateTime.le cutoff b.created_at)
    let keys := (recent.map (fun b => (b.created_at.year, b.created_at.month))).dedup
    some
      { total_bookings := mine.length
        status_counts :=
          allStatuses.filterMap (fun st =>
            let c := (mine.filter (fun b => b.status == st)).length
            if c ≠ 0 then some (st, c) else none)
        monthly_counts :=
          (sortMonthKeys keys).map (fun k =>
            { year := k.1
              month := k.2
              count := (recent.filter
                (fun b => b.created_at.year == k.1 && b.created_at.month == k.2)).length }) }

/-- Store states reachable from an initial store (photographer profiles
present, no bookings or reviews) through the mutating boundary
operations of the booking / review engine. -/
inductive Reachable : Store → Prop where
  | init (phs : List Photographer) :
      Reachable { bookings := [], photographers := phs, reviews := [], nextId := 0 }
  | createBooking (s : Store) (now : PyDateTime) (uid : Nat) (req : BookingCreateReq) :
      Reachable s → Reachable (create_booking s now uid req).2
  | updateBooking (s : Store) (u : User) (bid : Nat) (p : BookingUpdate) :
      Reachable s → Reachable (update_booking s u bid p).2
  | updateStatus (s : Store) (u : User) (bid : Nat) (st : BookingStatus) :
      Reachable s → Reachable (update_booking_status s u bid st).2
  | createReview (s : Store) (u : User) (req : ReviewCreateReq) :
      Reachable s → Reachable (create_review s u req).2

/-! Concrete fixtures used by the evaluation theorems and witnesses. -/

/-- A photographer profile with an empty rating aggregate. -/
def phot1 : Photographer := { id := 1, rating_avg := 0, total_reviews := 0 }

/-- Initial store: one photographer, no bookings, no reviews. -/
def s0 : Store := { bookings := [], photographers := [phot1], reviews := [], nextId := 0 }

/-- A fixed invocation instant. -/
def t0 : PyDateTime := { year := 2026, month := 1, day := 10, secs := 0 }

/-- A fixed location. -/
def loc0 : Location := { city := "Mumbai", sub_location := "Andheri" }

/-- A pending booking of customer 42 with photographer 7 over [10, 12). -/
def bk7 : Booking :=
  { id := 0, customer_id := 42, photographer_id := 7, event_type := .wedding,
    combo_type := .photo_only, location := loc0, start_time := 10, end_time := 12,
    total_hours := 2, total_amount := 100, status := .pending,
    special_requests := none, cancellation_reason := none, created_at := t0 }

/-- A store holding just the booking above. -/
def s7 : Store := { bookings := [bk7], photographers := [], reviews := [], nextId := 1 }

/-! Helper lemmas. -/

/-- Finding by key in a list after a key-preserving map commutes with the
map; this is how `find_one` behaves after an update-by-`_id`. -/
theorem find_replace_by_id {α : Type} (idf : α → Nat) (k : Nat) (l : List α)
    (f : α → α) (hf : ∀ x, idf (f x) = idf x) :
    (l.map f).find? (fun x => idf x == k) = (l.find? (fun x => idf x == k)).map f := by
  have hpf : ((fun x => idf x == k) ∘ f) = fun x => idf x == k := by
    funext x
    simp [Function.comp_apply, hf]
  rw [List.find?_map, hpf]

/-- Reading a photographer back after an update-by-`_id`. -/
theorem findPhotographer_set (s : Store) (c : Photographer) (k : Nat) :
    findPhotographer (setPhotographer s c) k =
      (findPhotographer s k).map (fun p => if p.id == c.id then c else p) := by
  unfold findPhotographer setPhotographer
  exact find_replace_by_id Photographer.id k s.photographers _
    (by
      intro x
      by_cases h : x.id = c.id
      · simp [h]
      · simp [h])

/-- Reading a booking back after an update-by-`_id`. -/
theorem findBooking_set (s : Store) (c : Booking) (k : Nat) :
    findBooking (setBooking s c) k =
      (findBooking s k).map (fun b => if b.id == c.id then c else b) := by
  unfold findBooking setBooking
  exact find_replace_by_id Booking.id k s.bookings _
    (by
      intro x
      by_cases h : x.id = c.id
      · simp [h]
      · simp [h])

/-- Propositional reading of the availability conflict filter. -/
theorem conflictsWith_eq_true (pid : Nat) (st et : Int) (excl : Option Nat) (b : Booking) :
    conflictsWith pid st et excl b = true ↔
      b.photographer_id = pid ∧ isActive b.status = true ∧
      b.start_time < et ∧ b.end_time > st ∧
      (∀ eid, excl = some eid → b.id ≠ eid) := by
  cases excl with
  | none =>
    simp [conflictsWith, and_assoc]
  | some eid =>
    simp [conflictsWith, and_assoc]

/-- The availability check reports a conflict exactly when some stored
booking passes the filter. -/
theorem check_availability_false_iff (s : Store) (pid : Nat) (st et : Int) (excl : Option Nat) :
    check_availability s pid st et excl = false ↔
      ∃ b ∈ s.bookings, b.photographer_id = pid ∧ isActive b.status = true ∧
        b.start_time < et ∧ b.end_time > st ∧
        (∀ eid, excl = some eid → b.id ≠ eid) := by
  have key : check_availability s pid st et excl = false ↔
      ∃ b ∈ s.bookings, conflictsWith pid st et excl b = true := by
    unfold check_availability
    rw [Bool.eq_false_iff, Ne, Option.isNone_iff_eq_none, ← ne_eq,
      Option.ne_none_iff_isSome, List.find?_isSome]
  rw [key]
  constructor
  · rintro ⟨b, hb, hc⟩
    exact ⟨b, hb, (conflictsWith_eq_true pid st et excl b).mp hc⟩
  · rintro ⟨b, hb, hc⟩
    exact ⟨b, hb, (conflictsWith_eq_true pid st et excl b).mpr hc⟩

/-- Rounding an integer value at two decimal places leaves it unchanged. -/
theorem round2_intCast (n : ℤ) : round2 ((n : ℚ)) = (n : ℚ) := by
  have h1 : ((n : ℚ) * 100) = (((n * 100 : ℤ) : ℚ)) := by push_cast; ring
  simp only [round2, roundHalfEven, h1, Int.floor_intCast, sub_self]
  norm_num

/-- Rounding a rational that happens to be an integer. -/
theorem round2_eq_intCast (q : ℚ) (n : ℤ) (h : q = (n : ℚ)) : round2 q = (n : ℚ) := by
  rw [h, round2_intCast]

/-- The identity fields of a booking survive a PUT patch. -/
theorem applyBookingUpdate_identity (b : Booking) (p : BookingUpdate) :
    (applyBookingUpdate b p).id = b.id ∧
    (applyBookingUpdate b p).customer_id = b.customer_id ∧
    (applyBookingUpdate b p).photographer_id = b.photographer_id :=
  ⟨rfl, rfl, rfl⟩

/-- The store the PUT handler leaves behind is either untouched or has
the patched booking written over the matching id. -/
theorem update_booking_snd (s : Store) (u : User) (bid : Nat) (p : BookingUpdate)
    (b : Booking) (hb : findBooking s bid = some b) :
    (update_booking s u bid p).2 = s ∨
    (update_booking s u bid p).2 = setBooking s (applyBookingUpdate b p) := by
  unfold update_booking
  rw [hb]
  by_cases h : (b.customer_id == u.id || b.photographer_id == u.id) = true
  · right
    simp [h]
  · left
    simp [h]

/-- The no-overlap invariant as a decidable check: no pair of distinct
active bookings of one photographer with overlapping half-open
intervals occurs in the store. -/
def noOverlapActive (s : Store) : Bool :=
  s.bookings.all (fun b1 => s.bookings.all (fun b2 =>
    !((b1.photographer_id == b2.photographer_id) && isActive b1.status &&
      isActive b2.status && decide (b1.start_time < b2.end_time) &&
      decide (b2.start_time < b1.end_time) && !(b1.id == b2.id))))

/-- Every reachable store has an empty bookings collection: the create
handler raises `AttributeError` before `insert_one`, and no other
boundary operation inserts a booking. -/
theorem reachable_bookings_nil (s : Store) (h : Reachable s) : s.bookings = [] := by
  induction h with
  | init phs => rfl
  | createBooking s now uid req hr ih => exact ih
  | updateBooking s u bid p hr ih =>
    simp [update_booking, findBooking, ih]
  | updateStatus s u bid st hr ih =>
    simp [update_booking_status, findBooking, ih]
  | createReview s u req hr ih =>
    cases hp : findPhotographer s req.photographer_id with
    | none => simp [create_review, hp, ih]
    | some p => simp [create_review, hp, ih]

/-! Claim theorems. -/

/-- Claim C1 (code bug evaluation): for every store and every
create-booking request, the handler raises `AttributeError` — its very
first expression reads `booking_in.photographer_id`, a field
`BookingCreate` does not declare — so it persists nothing and never
produces a created booking, a SlotConflict, or any taxonomy error. -/
theorem create_booking_always_raises (s : Store) (now : PyDateTime) (uid : Nat)
    (req : BookingCreateReq) :
    (create_booking s now uid req).1 = CreateBookingResult.raised PyExc.attributeError ∧
    (create_booking s now uid req).2 = s ∧
    ∀ b, (create_booking s now uid req).1 ≠ CreateBookingResult.created b := by
  refine ⟨rfl, rfl, ?_⟩
  intro b
  simp [create_booking]

/-- Claim C2: in every reachable store state, no two distinct active
bookings of the same photographer overlap: any two active bookings of
one photographer with overlapping half-open intervals have the same id.
The invariant holds degenerately: since every create request dies with
`AttributeError` before `insert_one`, reachable stores hold no bookings
at all. -/
theorem no_overlap_invariant (s : Store) (h : Reachable s) :
    noOverlapActive s = true ∧
    ∀ b1 ∈ s.bookings, ∀ b2 ∈ s.bookings,
      b1.photographer_id = b2.photographer_id →
      isActive b1.status = true → isActive b2.status = true →
      b1.start_time < b2.end_time → b2.start_time < b1.end_time →
      b1.id = b2.id := by
  constructor
  · simp [noOverlapActive, reachable_bookings_nil s h]
  · intro b1 hb1
    rw [reachable_bookings_nil s h] at hb1
    simp at hb1

/-- Witness for claim C2 at the reachable initial store holding
photographer 1. -/
theorem no_overlap_invariant_witness :
    noOverlapActive s0 = true :=
  (no_overlap_invariant s0 (Reachable.init [phot1])).1

/-- Claim C3 (code bug evaluation): the photographer of record requesting
the direct PENDING → COMPLETED transition on their own booking — a pair
absent from the specification's transition table — does not fail with
Forbidden: the handler, which implements no transition table, reaches
`crud.update_status(booking_id, status)` and raises `TypeError` for
the missing `updated_by` argument, leaving the store unchanged. -/
theorem pending_completed_raises_typeerror :
    findBooking s7 0 = some bk7 ∧ bk7.status = BookingStatus.pending ∧
    update_booking_status s7 ⟨7, UserRole.photographer⟩ 0 BookingStatus.completed =
      (StatusUpdateResult.raised PyExc.typeError, s7) := by
  decide

/-- Claim C4 (code bug evaluation): a review-creation request naming the
existing photographer 1 raises `AttributeError` (the handler calls
`crud.get_by_photographer_and_reviewer`, defined nowhere) and leaves the
store — in particular the photographer's rating aggregate — untouched:
the rating aggregation side effect fires zero times, not exactly once. -/
theorem create_review_raises_attributeerror :
    findPhotographer s0 1 = some phot1 ∧
    create_review s0 ⟨42, UserRole.customer⟩ ⟨1, 5, 5⟩ =
      (CreateReviewResult.raised PyExc.attributeError, s0) ∧
    phot1.rating_avg = 0 ∧ phot1.total_reviews = 0 := by
  decide

/-- Claim C5: `update_rating`, run against a stored photographer with
average `a` and count `n`, stores average `round((a*n + r)/(n+1), 2)`
and count `n+1` (both written by the single update), and sequentially
recording 5, 3, 4 from average 0 and count 0 yields stored average 4
and total_reviews 3. -/
theorem update_rating_spec :
    (∀ (s : Store) (pid r : Nat) (p : Photographer),
      findPhotographer s pid = some p →
      ∃ p2, findPhotographer (update_rating s pid r).2 pid = some p2 ∧
        p2.rating_avg =
          round2 ((p.rating_avg * (p.total_reviews : ℚ) + (r : ℚ)) / ((p.total_reviews : ℚ) + 1)) ∧
        p2.total_reviews = p.total_reviews + 1 ∧
        (update_rating s pid r).1 = some p2) ∧
    findPhotographer (update_rating (update_rating (update_rating s0 1 5).2 1 3).2 1 4).2 1 =
      some { id := 1, rating_avg := 4, total_reviews := 3 } := by
  constructor
  · intro s pid r p hp
    refine ⟨{ p with
        rating_avg :=
          round2 ((p.rating_avg * (p.total_reviews : ℚ) + (r : ℚ)) / ((p.total_reviews : ℚ) + 1)),
        total_reviews := p.total_reviews + 1 }, ?_, rfl, rfl, ?_⟩
    · simp [update_rating, hp, findPhotographer_set]
    · simp only [update_rating, hp]
  · have hA : update_rating s0 1 5 =
        (some { id := 1, rating_avg := 5, total_reviews := 1 },
         { bookings := [], photographers := [{ id := 1, rating_avg := 5, total_reviews := 1 }],
           reviews := [], nextId := 0 }) := by
      simp [update_rating, findPhotographer, s0, phot1, setPhotographer]
      rw [round2_eq_intCast _ 5 (by norm_num)]
      norm_num
    have hB : update_rating
        ({ bookings := [], photographers := [{ id := 1, rating_avg := 5, total_reviews := 1 }],
           reviews := [], nextId := 0 } : Store) 1 3 =
        (some { id := 1, rating_avg := 4, total_reviews := 2 },
         { bookings := [], photographers := [{ id := 1, rating_avg := 4, total_reviews := 2 }],
           reviews := [], nextId := 0 }) := by
      simp [update_rating, findPhotographer, setPhotographer]
      rw [round2_eq_intCast _ 4 (by norm_num)]
      norm_num
    have hC : update_rating
        ({ bookings := [], photographers := [{ id := 1, rating_avg := 4, total_reviews := 2 }],
           reviews := [], nextId := 0 } : Store) 1 4 =
        (some { id := 1, rating_avg := 4, total_reviews := 3 },
         { bookings := [], photographers := [{ id := 1, rating_avg := 4, total_reviews := 3 }],
           reviews := [], nextId := 0 }) := by
      simp [update_rating, findPhotographer, setPhotographer]
      rw [round2_eq_intCast _ 4 (by norm_num)]
      norm_num
    rw [hA, hB, hC]
    rfl

/-- Witness for claim C5's general part at photographer 1 in the initial
store. -/
theorem update_rating_spec_witness :
    ∃ p2, findPhotographer (update_rating s0 1 5).2 1 = some p2 ∧
      p2.rating_avg =
        round2 ((phot1.rating_avg * (phot1.total_reviews : ℚ) + (5 : ℚ)) /
          ((phot1.total_reviews : ℚ) + 1)) ∧
      p2.total_reviews = phot1.total_reviews + 1 ∧
      (update_rating s0 1 5).1 = some p2 :=
  update_rating_spec.1 s0 1 5 phot1 rfl

/-- Claim C6: the availability check returns false exactly when some
active booking of the photographer, other than the excluded one,
satisfies `start_time < endTime` and `end_time > startTime`; a booking
touching the candidate interval at an endpoint never passes the
conflict filter; and the check writes nothing — the store passes
through unchanged. -/
theorem check_availability_spec (s : Store) (pid : Nat) (st et : Int) (excl : Option Nat) :
    (check_availability s pid st et excl = false ↔
      ∃ b ∈ s.bookings, b.photographer_id = pid ∧ isActive b.status = true ∧
        b.start_time < et ∧ b.end_time > st ∧
        (∀ eid, excl = some eid → b.id ≠ eid)) ∧
    (∀ b ∈ s.bookings, b.end_time = st ∨ b.start_time = et →
      conflictsWith pid st et excl b = false) ∧
    (check_availabilityRun s pid st et excl).2 = s := by
  refine ⟨check_availability_false_iff s pid st et excl, ?_, rfl⟩
  intro b _ hb
  rcases hb with h | h
  · simp [conflictsWith, h]
  · simp [conflictsWith, h]

/-- Witness for claim C6: the stored booking ending at instant 12 does
not conflict with a candidate interval starting at 12. -/
theorem check_availability_spec_witness :
    conflictsWith 7 12 14 none bk7 = false :=
  (check_availability_spec s7 7 12 14 none).2.1 bk7 (by decide) (Or.inl (by decide))

/-- Claim C7 counterexample: the booking's own customer submits a PUT
patch containing `status`, and the stored status changes from PENDING
to COMPLETED — `BookingUpdate` exposes the status field, so the PUT is
not restricted to non-status fields. -/
theorem put_changes_status :
    findBooking s7 0 = some bk7 ∧ bk7.status = BookingStatus.pending ∧
    findBooking (update_booking s7 ⟨42, UserRole.customer⟩ 0
        ⟨some BookingStatus.completed, none, none⟩).2 0 =
      some { bk7 with status := BookingStatus.completed } := by
  decide

/-- Claim C7 as amended: whatever patch any caller submits to the PUT
handler, the booking's id, customer_id and photographer_id are the same
after the operation as before it (the status is not preserved, as the
counterexample shows). -/
theorem update_booking_preserves_identity (s : Store) (u : User) (bid : Nat)
    (p : BookingUpdate) (b b2 : Booking)
    (hb : findBooking s bid = some b)
    (hb2 : findBooking (update_booking s u bid p).2 bid = some b2) :
    b2.id = b.id ∧ b2.customer_id = b.customer_id ∧ b2.photographer_id = b.photographer_id := by
  rcases update_booking_snd s u bid p b hb with h | h
  · rw [h, hb] at hb2
    cases hb2
    exact ⟨rfl, rfl, rfl⟩
  · rw [h, findBooking_set, hb] at hb2
    simp [applyBookingUpdate] at hb2
    subst hb2
    exact ⟨rfl, rfl, rfl⟩

/-- The booking above after the photographer cancels it through the PUT
patch. -/
def bk7cancelled : Booking :=
  { bk7 with status := BookingStatus.cancelled, cancellation_reason := some "spam" }

/-- Witness for claim C7's amended theorem: the photographer patches
their booking's status and cancellation reason; the identity fields
survive. -/
theorem update_booking_preserves_identity_witness :
    bk7cancelled.id = bk7.id ∧ bk7cancelled.customer_id = bk7.customer_id ∧
    bk7cancelled.photographer_id = bk7.photographer_id :=
  update_booking_preserves_identity s7 ⟨7, UserRole.photographer⟩ 0
    ⟨some BookingStatus.cancelled, none, some "spam"⟩ bk7 bk7cancelled
    (by decide) (by decide)

/-- Claim C8: for every status-PATCH request whose booking id resolves,
the handler raises an unhandled Python exception and writes nothing;
the branches that reach persistence raise `TypeError` (the
`update_status` call misses its required `updated_by` argument), and
the permission / validation branches raise `AttributeError` (HTTP
status constants are read off the `status : BookingStatus` parameter
that shadows the fastapi module). -/
theorem update_booking_status_always_raises (s : Store) (u : User) (bid : Nat)
    (st : BookingStatus) (b : Booking) (hb : findBooking s bid = some b) :
    (∃ e, (update_booking_status s u bid st).1 = StatusUpdateResult.raised e) ∧
    (update_booking_status s u bid st).2 = s ∧
    ((u.role = UserRole.super_admin ∨
      (u.role = UserRole.photographer ∧ b.photographer_id = u.id) ∨
      (u.role = UserRole.customer ∧ b.customer_id = u.id ∧ st = BookingStatus.cancelled)) →
        (update_booking_status s u bid st).1 = StatusUpdateResult.raised PyExc.typeError) ∧
    (((u.role = UserRole.photographer ∧ b.photographer_id ≠ u.id) ∨
      (u.role = UserRole.customer ∧ (b.customer_id ≠ u.id ∨ st ≠ BookingStatus.cancelled))) →
        (update_booking_status s u bid st).1 = StatusUpdateResult.raised PyExc.attributeError) := by
  rcases u with ⟨uid, urole⟩
  simp only [update_booking_status, hb]
  cases urole with
  | super_admin =>
    simp
  | customer =>
    by_cases h1 : (b.customer_id == uid) = true
    · by_cases h2 : (st == BookingStatus.cancelled) = true
      · simp_all
      · simp_all
    · simp_all
  | photographer =>
    by_cases h1 : (b.photographer_id == uid) = true
    · simp_all
    · simp_all

/-- Witness for claim C8: the booking's own customer requests a
transition to PENDING and the handler raises `AttributeError`. -/
theorem update_booking_status_always_raises_witness :
    (update_booking_status s7 ⟨42, UserRole.customer⟩ 0 BookingStatus.pending).1 =
      StatusUpdateResult.raised PyExc.attributeError :=
  (update_booking_status_always_raises s7 ⟨42, UserRole.customer⟩ 0
      BookingStatus.pending bk7 (by decide)).2.2.2
    (Or.inr ⟨rfl, Or.inr (by decide)⟩)

/-- Claim C9 counterexample: on the inverted interval [5, 3) the
availability check does not fail with InvalidRange — it returns the
boolean availability result `true`. -/
theorem inverted_range_returns_bool :
    (3 : Int) ≤ 5 ∧
    (check_availabilityRun s7 7 5 3 none).1 = Except.ok true :=
  ⟨by norm_num, rfl⟩

/-- Claim C9 as amended: the availability check performs no interval
validation: on a malformed or inverted interval (startTime ≥ endTime)
the call still completes with the boolean result of the same overlap
filter, and never with an InvalidRange error. -/
theorem check_availability_no_invalid_range (s : Store) (pid : Nat) (st et : Int)
    (excl : Option Nat) (_h : et ≤ st) :
    (check_availabilityRun s pid st et excl).1 =
      Except.ok (check_availability s pid st et excl) ∧
    (∀ e, (check_availabilityRun s pid st et excl).1 ≠ Except.error e) ∧
    (check_availability s pid st et excl = false ↔
      ∃ b ∈ s.bookings, b.photographer_id = pid ∧ isActive b.status = true ∧
        b.start_time < et ∧ b.end_time > st ∧
        (∀ eid, excl = some eid → b.id ≠ eid)) := by
  refine ⟨rfl, ?_, check_availability_false_iff s pid st et excl⟩
  intro e
  simp [check_availabilityRun]

/-- Witness for claim C9's amended theorem at the inverted interval
[5, 3). -/
theorem check_availability_no_invalid_range_witness :
    (check_availabilityRun s7 7 5 3 none).1 =
      Except.ok (check_availability s7 7 5 3 none) :=
  (check_availability_no_invalid_range s7 7 5 3 none (by decide)).1

/-- Claim C10 (code bug evaluation): for any store and photographer, a
statistics request made at 2026-03-15 raises `ValueError` instead of
returning the aggregation: `utcnow().replace(month=3-6)` passes the
out-of-range month -3 to `datetime.replace`. -/
theorem get_booking_stats_march_valueerror (s : Store) (pid : Nat) :
    get_booking_stats s { year := 2026, month := 3, day := 15, secs := 0 } pid = none :=
  rfl

end BookMyShoot
